import Mathlib

/-!
Shallow embedding of the asynchronous logging facility in `common/log.cpp`
(`gpt_log`, `gpt_log_entry` and the facility-level API).

Machine integers are modelled as `Nat` where the source cannot overflow
(buffer indices, sizes, non-negative microsecond timestamps); the
environment verbosity is an `Int` (the source obtains it via `atoi`).
The worker thread is modelled by an explicit drain function: the
condition-variable wait `head != tail` becomes the loop guard, and a
drain that can never observe `head != tail` (the worker blocking forever,
so that `pause`'s `join` never returns) is an `Option.none` outcome.
File handles are opaque `Nat` identifiers; `fopen` results are passed in
as an `Option Nat` parameter.
-/

/-- `enum ggml_log_level` as used by `log.cpp`. -/
inductive ggml_log_level where
  | NONE : ggml_log_level
  | INFO : ggml_log_level
  | WARN : ggml_log_level
  | ERROR : ggml_log_level
  | DEBUG : ggml_log_level
deriving DecidableEq

/-- `struct gpt_log_entry`. The C `std::vector<char> msg` holds a
null-terminated formatted string inside a capacity that may exceed the
text; it is modelled as the logical text `msg : List Char` plus the
vector size `msg_cap` (the value of `entry.msg.size()`). -/
structure gpt_log_entry where
  level : ggml_log_level
  timestamp : Nat
  msg_cap : Nat
  msg : List Char
  is_end : Bool
deriving DecidableEq

/-- A value-initialized `gpt_log_entry` whose `msg` was `resize(256)`d,
as produced for fresh ring slots by the constructor and by growth. -/
def default_slot : gpt_log_entry :=
  { level := ggml_log_level.NONE, timestamp := 0, msg_cap := 256, msg := [], is_end := false }

/- ANSI color escapes from the `LOG_COL_*` macros (`LOG_COLORS` is
defined unconditionally in `log.cpp`, so these are compiled into every
format string, console or file alike). -/

def LOG_COL_DEFAULT : List Char := ['\x1b', '[', '0', 'm']

def LOG_COL_BLUE : List Char := ['\x1b', '[', '3', '4', 'm']

def LOG_COL_RED : List Char := ['\x1b', '[', '3', '1', 'm']

def LOG_COL_GREEN : List Char := ['\x1b', '[', '3', '2', 'm']

def LOG_COL_YELLOW : List Char := ['\x1b', '[', '3', '3', 'm']

def LOG_COL_MAGENTA : List Char := ['\x1b', '[', '3', '5', 'm']

/-- `%0<width>d` for a non-negative value: decimal digits, zero-padded on
the left to at least `width` characters. -/
def pad_num (width n : Nat) : List Char :=
  let s := (Nat.repr n).data
  List.replicate (width - s.length) '0' ++ s

/-- The timestamp portion printed by `gpt_log_entry::print` when
`timestamp` is non-zero:
`fprintf(fcur, "" LOG_COL_BLUE "%05d.%02d.%03d.%03d" LOG_COL_DEFAULT " ", ts/1000000/60, ts/1000000%60, ts/1000%1000, ts%1000)`. -/
def gpt_log_timestamp_text (ts : Nat) : List Char :=
  LOG_COL_BLUE ++ pad_num 5 (ts / 1000000 / 60) ++
  '.' :: pad_num 2 (ts / 1000000 % 60) ++
  '.' :: pad_num 3 (ts / 1000 % 1000) ++
  '.' :: pad_num 3 (ts % 1000) ++
  LOG_COL_DEFAULT ++ [' ']

/-- The level tag printed by the `switch (level)` in `gpt_log_entry::print`. -/
def level_tag : ggml_log_level → List Char
  | ggml_log_level.INFO => LOG_COL_GREEN ++ 'I' :: ' ' :: LOG_COL_DEFAULT
  | ggml_log_level.WARN => LOG_COL_MAGENTA ++ ['W', ' ']
  | ggml_log_level.ERROR => LOG_COL_RED ++ ['E', ' ']
  | ggml_log_level.DEBUG => LOG_COL_YELLOW ++ ['D', ' ']
  | ggml_log_level.NONE => []

/-- The trailing color reset printed after the message for
`WARN`/`ERROR`/`DEBUG` levels. -/
def level_trail (level : ggml_log_level) : List Char :=
  if level = ggml_log_level.WARN ∨ level = ggml_log_level.ERROR ∨ level = ggml_log_level.DEBUG then
    LOG_COL_DEFAULT
  else
    []

/-- The byte sequence `gpt_log_entry::print` writes to its stream `fcur`
(the same for console and file: the format strings are identical). -/
def gpt_log_entry_text (e : gpt_log_entry) : List Char :=
  (if e.level = ggml_log_level.NONE then
    []
  else
    (if e.timestamp ≠ 0 then gpt_log_timestamp_text e.timestamp else []) ++ level_tag e.level)
  ++ e.msg ++ level_trail e.level

/-- A sink a rendered entry can be written to: `stdout`, `stderr`, or an
open `FILE *` identified by an opaque handle. -/
inductive log_sink where
  | out : log_sink
  | err : log_sink
  | file : Nat → log_sink
deriving DecidableEq

/-- `gpt_log_entry::print(FILE * file)`: with a file the text goes to the
file unconditionally; with no file, `DEBUG` entries are dropped when
`gpt_log_verbosity_env < LOG_DEFAULT_DEBUG`, and otherwise `fcur` is
`stdout` for level `NONE` and `stderr` for every other level.
`verbosity` models `gpt_log_verbosity_env` and `debug_threshold` models
`LOG_DEFAULT_DEBUG` (declared in the header `log.h`). -/
def gpt_log_entry_print (e : gpt_log_entry) (file : Option Nat)
    (verbosity debug_threshold : Int) : Option (log_sink × List Char) :=
  match file with
  | some h => some (log_sink.file h, gpt_log_entry_text e)
  | none =>
    if e.level = ggml_log_level.DEBUG ∧ verbosity < debug_threshold then
      none
    else if e.level = ggml_log_level.NONE then
      some (log_sink.out, gpt_log_entry_text e)
    else
      some (log_sink.err, gpt_log_entry_text e)

/-- `struct gpt_log` (the mutex, condition variable and thread handle are
represented by the explicit drain model; `file` is an opaque handle). -/
structure gpt_log where
  file : Option Nat
  timestamps : Bool
  running : Bool
  t_start : Nat
  entries : List gpt_log_entry
  head : Nat
  tail : Nat
deriving DecidableEq

/-- `gpt_log::resume`: no-op when already running, otherwise set
`running` and start the worker thread (the worker's consumption is the
explicit drain model). -/
def gpt_log_resume (log : gpt_log) : gpt_log :=
  if log.running then log else { log with running := true }

/-- The constructor `gpt_log::gpt_log(size_t capacity)`: no file,
timestamps on, `capacity` slots each with `msg.resize(256)`, `head`,
`tail` at 0, then `resume()`. `t0` models the `t_us()` start time. -/
def gpt_log_new (capacity t0 : Nat) : gpt_log :=
  gpt_log_resume
    { file := none, timestamps := true, running := false, t_start := t0,
      entries := List.replicate capacity default_slot, head := 0, tail := 0 }

/-- `gpt_log_init()`: `new gpt_log{256}` — note: no capacity parameter,
the capacity is the hard-coded literal 256. -/
def gpt_log_init (t0 : Nat) : gpt_log :=
  gpt_log_new 256 t0

/-- Lines 150-160 of `gpt_log::add`: `vsnprintf` into the slot's current
vector (writing at most `size-1` characters), and if the reported length
`n` does not fit (`n >= entry.msg.size()`), `entry.msg.resize(n + 1)`
and re-render from the `va_copy`d argument list. `text` is the fully
formatted message the varargs denote. -/
def gpt_log_add_format (slot : gpt_log_entry) (text : List Char) : gpt_log_entry :=
  let n := text.length
  let first := { slot with msg := text.take (slot.msg_cap - 1) }
  if n ≥ slot.msg_cap then
    { first with msg_cap := n + 1, msg := text }
  else
    first

/-- The metadata stores of `gpt_log::add` after formatting:
`entry.level = level; entry.timestamp = ...; entry.is_end = false;`. -/
def stamp_entry (slot : gpt_log_entry) (level : ggml_log_level) (timestamp : Nat) :
    gpt_log_entry :=
  { slot with level := level, timestamp := timestamp, is_end := false }

/-- The sentinel store of `gpt_log::pause`: `entry.is_end = true;` (the
other fields of the slot are left as they were). -/
def mark_sentinel (slot : gpt_log_entry) : gpt_log_entry :=
  { slot with is_end := true }

/-- The do-while loop of the growth path in `gpt_log::add`:
`new_entries[new_tail] = std::move(entries[head]); head = (head+1) % entries.size(); new_tail = new_tail+1;`
repeated `while (head != tail)`. The accumulator collects the moved
entries in order; the returned `Nat` is the final `head`. The fuel is
instantiated with `entries.size()`, which bounds the loop's iterations
from any realizable full state. -/
def gpt_log_grow_loop : Nat → List gpt_log_entry → Nat → Nat → List gpt_log_entry →
    List gpt_log_entry × Nat
  | 0, _, head, _, acc => (acc, head)
  | fuel + 1, entries, head, tail, acc =>
    let acc' := acc ++ [entries.getD head default_slot]
    let head' := (head + 1) % entries.length
    if head' = tail then (acc', head') else gpt_log_grow_loop fuel entries head' tail acc'

/-- `gpt_log::add(level, fmt, args)`: drop when not `running`; format
into the slot at `tail` (growing the slot to exactly fit when needed);
stamp `level`, `timestamp` (`t_us() - t_start` when timestamps are on,
else 0) and `is_end = false`; advance `tail` modulo capacity; and if the
advance made `tail == head`, double the buffer: move every entry from
`head` in consumption order into a fresh array starting at index 0, set
`head = 0`, `tail = ` the number moved, and pre-size the trailing fresh
slots' `msg` to 256. `now` models `t_us()`. -/
def gpt_log_add (log : gpt_log) (level : ggml_log_level) (text : List Char) (now : Nat) :
    gpt_log :=
  if !log.running then log
  else
    let slot := stamp_entry (gpt_log_add_format (log.entries.getD log.tail default_slot) text)
      level (if log.timestamps then now - log.t_start else 0)
    let entries := log.entries.set log.tail slot
    let tail := (log.tail + 1) % entries.length
    if tail = log.head then
      let r := gpt_log_grow_loop entries.length entries log.head tail []
      { log with entries := r.1 ++ List.replicate (2 * entries.length - r.1.length) default_slot,
                 head := 0, tail := r.1.length }
    else
      { log with entries := entries, tail := tail }

/-- The entry `gpt_log::add` writes into the slot at `tail` (before any
growth move): the formatted slot with the stamped metadata. -/
def gpt_log_written_entry (log : gpt_log) (level : ggml_log_level) (text : List Char)
    (now : Nat) : gpt_log_entry :=
  stamp_entry (gpt_log_add_format (log.entries.getD log.tail default_slot) text)
    level (if log.timestamps then now - log.t_start else 0)

/-- The pending (appended but not yet consumed) entries, in consumption
order starting at `head`. Their count is `(tail + C - head) % C`, the
ring distance from `head` to `tail`. -/
def gpt_log_pending (log : gpt_log) : List gpt_log_entry :=
  let C := log.entries.length
  (List.range ((log.tail + C - log.head) % C)).map
    (fun i => log.entries.getD ((log.head + i) % C) default_slot)

/-- The worker loop of `gpt_log::resume`, run to termination: while
`head != tail`, copy `entries[head]`, advance `head`, stop on a sentinel
(`is_end`), otherwise render the copy and continue. Result: final state,
entries rendered (in order), and whether the sentinel was reached. When
`head == tail` the worker blocks on the condition variable; since a
drain is only demanded while `running == false` (inside `pause`), no
further signal can ever arrive and the `false` flag marks that the
worker sleeps forever. -/
def gpt_log_drain_loop : Nat → gpt_log → gpt_log × List gpt_log_entry × Bool
  | 0, log => (log, [], false)
  | fuel + 1, log =>
    if log.head = log.tail then (log, [], false)
    else
      let cur := log.entries.getD log.head default_slot
      let log' := { log with head := (log.head + 1) % log.entries.length }
      if cur.is_end then (log', [], true)
      else
        let r := gpt_log_drain_loop fuel log'
        (r.1, cur :: r.2.1, r.2.2)

/-- `gpt_log::pause`: no-op when not running (the worker has already
exited, nothing is rendered); otherwise clear `running`, mark the slot
at `tail` as a sentinel (`is_end = true`), advance `tail` modulo
capacity — with NO growth check — wake the worker and `join` it. The
returned list is what the worker rendered before exiting; `none` means
the worker never reaches the sentinel (its wait on `head != tail` never
succeeds), i.e. the `join` blocks forever. -/
def gpt_log_pause (log : gpt_log) : gpt_log × Option (List gpt_log_entry) :=
  if !log.running then (log, some [])
  else
    let log1 := { log with running := false,
                           entries := log.entries.set log.tail
                             (mark_sentinel (log.entries.getD log.tail default_slot)),
                           tail := (log.tail + 1) % log.entries.length }
    let r := gpt_log_drain_loop (log.entries.length + 1) log1
    if r.2.2 then (r.1, some r.2.1) else (r.1, none)

/-- `gpt_log::set_file(path)`: `pause()`; `fclose` the previous file if
any; `fopen(path, "w")` when a path is given (the result may be `none`
on open failure) or clear the handle when no path is given; `resume()`.
Returns the new state, the entries the internal `pause` drained (they
were rendered with the OLD file handle still installed), and the handle
that was closed. `none` propagates a `pause` that never returns. -/
def gpt_log_set_file (log : gpt_log) (path : Option (List Char)) (open_result : Option Nat) :
    Option (gpt_log × List gpt_log_entry × Option Nat) :=
  match gpt_log_pause log with
  | (_, none) => none
  | (log1, some rendered) =>
    let closed := log1.file
    let log2 := { log1 with file := match path with
                                    | some _ => open_result
                                    | none => none }
    some (gpt_log_resume log2, rendered, closed)

/-- `gpt_log::set_timestamps(bool)`. -/
def gpt_log_set_timestamps (log : gpt_log) (timestamps : Bool) : gpt_log :=
  { log with timestamps := timestamps }

/-! ### Ring-index arithmetic helpers -/

theorem ring_add_mod_inj {n a b x : Nat} (ha : a < n) (hb : b < n)
    (h : (x + a) % n = (x + b) % n) : a = b := by
  have h2 : a % n = b % n := Nat.ModEq.add_left_cancel' x h
  rwa [Nat.mod_eq_of_lt ha, Nat.mod_eq_of_lt hb] at h2

theorem ring_dist_eq {C h m : Nat} (hh : h < C) (hm : m < C) :
    ((h + m) % C + C - h) % C = m := by
  rcases Nat.lt_or_ge (h + m) C with h1 | h1
  · rw [Nat.mod_eq_of_lt h1]
    have e : h + m + C - h = m + C := by omega
    rw [e, Nat.add_mod_right, Nat.mod_eq_of_lt hm]
  · have e0 : (h + m) % C = h + m - C := by
      rw [Nat.mod_eq_sub_mod h1, Nat.mod_eq_of_lt (by omega)]
    have e : (h + m) % C + C - h = m := by omega
    rw [e, Nat.mod_eq_of_lt hm]

theorem ring_tail_eq {C h t : Nat} (ht : t < C) (hh : h < C) (he : (t + 1) % C = h) :
    t = (h + (C - 1)) % C := by
  rcases Nat.lt_or_ge (t + 1) C with h1 | h1
  · rw [Nat.mod_eq_of_lt h1] at he
    subst he
    have e : t + 1 + (C - 1) = t + C := by omega
    rw [e, Nat.add_mod_right, Nat.mod_eq_of_lt ht]
  · have e1 : t + 1 = C := by omega
    rw [e1, Nat.mod_self] at he
    subst he
    rw [Nat.zero_add, Nat.mod_eq_of_lt (by omega)]
    omega

/-! ### Characterization of the growth loop -/

theorem gpt_log_grow_loop_spec (entries : List gpt_log_entry) :
    ∀ (k fuel h t : Nat) (acc : List gpt_log_entry),
      h < entries.length → k < entries.length →
      (h + (k + 1)) % entries.length = t → k + 1 ≤ fuel →
      gpt_log_grow_loop fuel entries h t acc =
        (acc ++ (List.range (k + 1)).map
          (fun i => entries.getD ((h + i) % entries.length) default_slot), t) := by
  intro k
  induction k with
  | zero =>
    intro fuel h t acc hh hk he hf
    have hC : 0 < entries.length := Nat.lt_of_le_of_lt (Nat.zero_le h) hh
    cases fuel with
    | zero => omega
    | succ f =>
      simp only [gpt_log_grow_loop]
      rw [if_pos (by rw [← he])]
      simp [List.range_succ, he, Nat.mod_eq_of_lt hh]
  | succ k ih =>
    intro fuel h t acc hh hk he hf
    have hC : 0 < entries.length := Nat.lt_of_le_of_lt (Nat.zero_le h) hh
    cases fuel with
    | zero => omega
    | succ f =>
      simp only [gpt_log_grow_loop]
      have hne : ¬ ((h + 1) % entries.length = t) := by
        intro hcontra
        have e2 : (h + (k + 1 + 1)) = ((h + 1) + (k + 1)) := by omega
        rw [e2] at he
        rw [← he] at hcontra
        have e1 : (h + 1) % entries.length = ((h + 1) + 0) % entries.length := by
          rw [Nat.add_zero]
        rw [e1] at hcontra
        have := ring_add_mod_inj hC hk hcontra
        omega
      rw [if_neg hne]
      have hh' : (h + 1) % entries.length < entries.length := Nat.mod_lt _ hC
      have hk' : k < entries.length := Nat.lt_of_succ_lt hk
      have he' : ((h + 1) % entries.length + (k + 1)) % entries.length = t := by
        rw [Nat.mod_add_mod]
        rw [← he]
        congr 1
        omega
      rw [ih f ((h + 1) % entries.length) t (acc ++ [entries.getD h default_slot]) hh' hk' he'
        (by omega)]
      have egoal : acc ++ [entries.getD h default_slot] ++
          List.map (fun i => entries.getD (((h + 1) % entries.length + i) % entries.length)
            default_slot) (List.range (k + 1)) =
          acc ++ List.map (fun i => entries.getD ((h + i) % entries.length) default_slot)
            (List.range (k + 1 + 1)) := by
        have e3 : (fun i => entries.getD (((h + 1) % entries.length + i) % entries.length)
            default_slot) = fun i => entries.getD ((h + (i + 1)) % entries.length) default_slot := by
          funext i
          rw [Nat.mod_add_mod]
          congr 2
          omega
        rw [e3, List.append_assoc, List.singleton_append]
        congr 1
        rw [List.range_succ_eq_map (k + 1)]
        simp only [List.map_cons, List.map_map]
        congr 1
        rw [Nat.add_zero, Nat.mod_eq_of_lt hh]
      rw [egoal]

theorem gpt_log_grow_loop_full (entries : List gpt_log_entry) (t : Nat)
    (ht : t < entries.length) :
    gpt_log_grow_loop entries.length entries t t [] =
      ((List.range entries.length).map
        (fun i => entries.getD ((t + i) % entries.length) default_slot), t) := by
  have hC : 0 < entries.length := Nat.lt_of_le_of_lt (Nat.zero_le t) ht
  have h := gpt_log_grow_loop_spec entries (entries.length - 1) entries.length t t []
    ht (by omega)
    (by
      have e : t + (entries.length - 1 + 1) = t + entries.length := by omega
      rw [e, Nat.add_mod_right, Nat.mod_eq_of_lt ht])
    (by omega)
  rw [h]
  have e2 : entries.length - 1 + 1 = entries.length := by omega
  rw [e2, List.nil_append]

theorem getD_set_ne {α : Type} (l : List α) (d a : α) {i j : Nat} (h : i ≠ j)
    (hj : j < l.length) : (l.set i a).getD j d = l.getD j d := by
  rw [List.getD_eq_getElem _ _ (by simpa using hj), List.getD_eq_getElem _ _ hj]
  exact List.getElem_set_ne h (by simpa using hj)

theorem getD_set_self {α : Type} (l : List α) (d a : α) {i : Nat} (hi : i < l.length) :
    (l.set i a).getD i d = a := by
  rw [List.getD_eq_getElem _ _ (by simpa using hi)]
  exact List.getElem_set_self (by simpa using hi)

/-! ### Characterization of the worker drain -/

theorem gpt_log_drain_loop_spec :
    ∀ (k fuel : Nat) (log : gpt_log),
      log.head < log.entries.length →
      k + 1 < log.entries.length →
      log.tail = (log.head + (k + 1)) % log.entries.length →
      (∀ i, i < k →
        (log.entries.getD ((log.head + i) % log.entries.length) default_slot).is_end = false) →
      (log.entries.getD ((log.head + k) % log.entries.length) default_slot).is_end = true →
      k + 1 ≤ fuel →
      gpt_log_drain_loop fuel log =
        ({ log with head := log.tail },
         (List.range k).map
           (fun i => log.entries.getD ((log.head + i) % log.entries.length) default_slot),
         true) := by
  intro k
  induction k with
  | zero =>
    intro fuel log hh hk ht hpend hsent hf
    have hC : 0 < log.entries.length := Nat.lt_of_le_of_lt (Nat.zero_le _) hh
    cases fuel with
    | zero => omega
    | succ f =>
      simp only [gpt_log_drain_loop]
      have hne : ¬ (log.head = log.tail) := by
        intro hcontra
        rw [ht] at hcontra
        have hcontra2 : (log.head + 0) % log.entries.length =
            (log.head + (0 + 1)) % log.entries.length := by
          rw [Nat.add_zero, Nat.mod_eq_of_lt hh]
          exact hcontra
        have := ring_add_mod_inj hC hk hcontra2
        omega
      rw [if_neg hne]
      have e0 : (log.head + 0) % log.entries.length = log.head := by
        rw [Nat.add_zero, Nat.mod_eq_of_lt hh]
      rw [e0] at hsent
      rw [if_pos hsent]
      rw [ht]
      rfl
  | succ k ih =>
    intro fuel log hh hk ht hpend hsent hf
    have hC : 0 < log.entries.length := Nat.lt_of_le_of_lt (Nat.zero_le _) hh
    cases fuel with
    | zero => omega
    | succ f =>
      simp only [gpt_log_drain_loop]
      have hne : ¬ (log.head = log.tail) := by
        intro hcontra
        rw [ht] at hcontra
        have hcontra2 : (log.head + 0) % log.entries.length =
            (log.head + (k + 1 + 1)) % log.entries.length := by
          rw [Nat.add_zero, Nat.mod_eq_of_lt hh]
          exact hcontra
        have := ring_add_mod_inj hC hk hcontra2
        omega
      rw [if_neg hne]
      have e0 : (log.head + 0) % log.entries.length = log.head := by
        rw [Nat.add_zero, Nat.mod_eq_of_lt hh]
      have hcur : (log.entries.getD log.head default_slot).is_end = false := by
        have := hpend 0 (by omega)
        rwa [e0] at this
      rw [if_neg (by rw [hcur]; exact Bool.false_ne_true)]
      have hih := ih f { log with head := (log.head + 1) % log.entries.length }
        (by simpa using Nat.mod_lt _ hC)
        (by simpa using Nat.lt_of_succ_lt hk)
        (by
          simp only
          rw [Nat.mod_add_mod, ht]
          congr 1
          omega)
        (by
          intro i hi
          simp only
          rw [Nat.mod_add_mod]
          have := hpend (i + 1) (by omega)
          have e2 : log.head + 1 + i = log.head + (i + 1) := by omega
          rw [e2]
          exact this)
        (by
          simp only
          rw [Nat.mod_add_mod]
          have e2 : log.head + 1 + k = log.head + (k + 1) := by omega
          rw [e2]
          exact hsent)
        (by omega)
      rw [hih]
      have e4 : (fun i => log.entries.getD
          (((log.head + 1) % log.entries.length + i) % log.entries.length) default_slot) =
          fun i => log.entries.getD ((log.head + (i + 1)) % log.entries.length) default_slot := by
        funext i
        rw [Nat.mod_add_mod]
        congr 2
        omega
      have e5 : log.entries.getD log.head default_slot ::
          List.map (fun i => log.entries.getD ((log.head + (i + 1)) % log.entries.length)
            default_slot) (List.range k) =
          List.map (fun i => log.entries.getD ((log.head + i) % log.entries.length) default_slot)
            (List.range (k + 1)) := by
        rw [List.range_succ_eq_map k]
        simp only [List.map_cons, List.map_map]
        congr 1
        rw [Nat.add_zero, Nat.mod_eq_of_lt hh]
      simp only at e4
      rw [e4, e5]

/-- Successful `pause`: when the sentinel insertion does NOT advance
`tail` onto `head` (the `m` pending entries plus the sentinel still fit:
`m + 1 < capacity`), the worker drains the pending entries in FIFO
order, consumes the sentinel and exits; `pause` returns with the buffer
empty (`head == tail`). -/
theorem gpt_log_pause_success (log : gpt_log) (m : Nat)
    (hr : log.running = true)
    (hh : log.head < log.entries.length)
    (hm : m + 1 < log.entries.length)
    (ht : log.tail = (log.head + m) % log.entries.length)
    (hpend : ∀ i, i < m →
      (log.entries.getD ((log.head + i) % log.entries.length) default_slot).is_end = false) :
    gpt_log_pause log =
      ({ log with running := false,
                  entries := log.entries.set log.tail
                    (mark_sentinel (log.entries.getD log.tail default_slot)),
                  head := (log.tail + 1) % log.entries.length,
                  tail := (log.tail + 1) % log.entries.length },
       some (gpt_log_pending log)) := by
  have hC : 0 < log.entries.length := Nat.lt_of_le_of_lt (Nat.zero_le (m + 1)) hm
  have hmC : m < log.entries.length := by omega
  have htail_lt : log.tail < log.entries.length := by
    rw [ht]; exact Nat.mod_lt _ hC
  have hset_len : (log.entries.set log.tail
      (mark_sentinel (log.entries.getD log.tail default_slot))).length =
      log.entries.length := List.length_set ..
  have hne_tail : ∀ i, i < m → (log.head + i) % log.entries.length ≠ log.tail := by
    intro i hi hcontra
    rw [ht] at hcontra
    have := ring_add_mod_inj (Nat.lt_trans hi hmC) hmC hcontra
    omega
  have hdrain := gpt_log_drain_loop_spec m (log.entries.length + 1)
    { log with running := false,
               entries := log.entries.set log.tail
                 (mark_sentinel (log.entries.getD log.tail default_slot)),
               tail := (log.tail + 1) % log.entries.length }
    (by simpa [hset_len] using hh)
    (by simpa [hset_len] using hm)
    (by
      simp only [hset_len]
      rw [ht, Nat.mod_add_mod, Nat.add_assoc])
    (by
      intro i hi
      simp only [hset_len]
      rw [getD_set_ne _ _ _ (fun e => (hne_tail i hi) e.symm) (Nat.mod_lt _ hC)]
      exact hpend i hi)
    (by
      simp only [hset_len]
      have he : (log.head + m) % log.entries.length = log.tail := ht.symm
      rw [he, getD_set_self _ _ _ htail_lt]
      rfl)
    (by omega)
  have hrendered : (List.range m).map
      (fun i => ((log.entries.set log.tail
        (mark_sentinel (log.entries.getD log.tail default_slot))).getD
          ((log.head + i) % log.entries.length) default_slot)) =
      gpt_log_pending log := by
    rw [gpt_log_pending]
    have hcnt : (log.tail + log.entries.length - log.head) % log.entries.length = m := by
      rw [ht]
      exact ring_dist_eq hh hmC
    simp only [hcnt]
    apply List.map_congr_left
    intro i hi
    rw [List.mem_range] at hi
    exact getD_set_ne _ _ _ (fun e => (hne_tail i hi) e.symm) (Nat.mod_lt _ hC)
  rw [gpt_log_pause, hr]
  simp only [Bool.not_true, Bool.false_eq_true, if_false]
  rw [hset_len] at hdrain
  rw [hdrain]
  simp only [hrendered]
  simp

/-! ### Claim theorems -/

/-- C8: calling `add` on a STOPPED instance (`running = false`) returns
without error and leaves the whole instance unchanged — `head`, `tail`,
buffer capacity, every slot's contents, the file handle and the
timestamp flag — so nothing is ever rendered for it. -/
theorem claim_C8_add_stopped_noop (log : gpt_log) (level : ggml_log_level)
    (text : List Char) (now : Nat) (h : log.running = false) :
    gpt_log_add log level text now = log := by
  rw [gpt_log_add, h]
  rfl

/-- Witness for C8 at a concrete stopped instance. -/
theorem claim_C8_witness :
    gpt_log_add
      { file := some 5, timestamps := true, running := false, t_start := 0,
        entries := List.replicate 2 default_slot, head := 0, tail := 0 }
      ggml_log_level.INFO ['h', 'i'] 9 =
    { file := some 5, timestamps := true, running := false, t_start := 0,
      entries := List.replicate 2 default_slot, head := 0, tail := 0 } :=
  claim_C8_add_stopped_noop _ _ _ _ rfl

/-- C9: formatting into a slot (`gpt_log::add`, lines 150-160): when the
formatted length `n` does not fit (`n ≥ msg.size()`), the slot's vector
is resized to exactly `n + 1` and the full text is re-rendered from the
`va_copy`d argument list; when it fits on the first attempt the capacity
is unchanged; either way the slot afterwards holds the complete
formatted message. -/
theorem claim_C9_format_grow (slot : gpt_log_entry) (text : List Char) :
    (text.length ≥ slot.msg_cap →
      (gpt_log_add_format slot text).msg_cap = text.length + 1 ∧
      (gpt_log_add_format slot text).msg = text) ∧
    (text.length < slot.msg_cap →
      (gpt_log_add_format slot text).msg_cap = slot.msg_cap ∧
      (gpt_log_add_format slot text).msg = text) := by
  constructor
  · intro h
    simp only [gpt_log_add_format]
    rw [if_pos h]
    exact ⟨rfl, rfl⟩
  · intro h
    simp only [gpt_log_add_format]
    rw [if_neg (Nat.not_le.mpr h)]
    exact ⟨rfl, List.take_of_length_le (by omega)⟩

/-- Witness for C9: a 3-character message into a capacity-2 slot grows
the slot to capacity 4 and stores the whole text. -/
theorem claim_C9_witness :
    (gpt_log_add_format
      { level := ggml_log_level.NONE, timestamp := 0, msg_cap := 2, msg := [],
        is_end := false } ['a', 'b', 'c']).msg_cap = 4 ∧
    (gpt_log_add_format
      { level := ggml_log_level.NONE, timestamp := 0, msg_cap := 2, msg := [],
        is_end := false } ['a', 'b', 'c']).msg = ['a', 'b', 'c'] :=
  (claim_C9_format_grow _ _).1 (by decide)

/-- C7: console stream selection is a function of the level (`NONE` goes
to stdout, every other level to stderr); a `DEBUG` entry reaches the
console only when the environment verbosity is at least the debug
threshold, but always reaches an open file sink regardless of the
verbosity. -/
theorem claim_C7_routing (e : gpt_log_entry) (h : Nat) (v thr : Int) :
    gpt_log_entry_print e (some h) v thr = some (log_sink.file h, gpt_log_entry_text e) ∧
    (e.level = ggml_log_level.NONE →
      gpt_log_entry_print e none v thr = some (log_sink.out, gpt_log_entry_text e)) ∧
    (e.level ≠ ggml_log_level.NONE → e.level ≠ ggml_log_level.DEBUG →
      gpt_log_entry_print e none v thr = some (log_sink.err, gpt_log_entry_text e)) ∧
    (e.level = ggml_log_level.DEBUG → v < thr →
      gpt_log_entry_print e none v thr = none) ∧
    (e.level = ggml_log_level.DEBUG → thr ≤ v →
      gpt_log_entry_print e none v thr = some (log_sink.err, gpt_log_entry_text e)) := by
  refine ⟨rfl, ?_, ?_, ?_, ?_⟩
  · intro hN
    simp [gpt_log_entry_print, hN]
  · intro hN hD
    simp [gpt_log_entry_print, hN, hD]
  · intro hD hv
    simp [gpt_log_entry_print, hD, hv]
  · intro hD hv
    simp [gpt_log_entry_print, hD, not_lt.mpr hv]

/-- Witness for C7 at a concrete DEBUG entry with verbosity below the
threshold: written to the file sink, dropped from the console. -/
theorem claim_C7_witness :
    gpt_log_entry_print
      { level := ggml_log_level.DEBUG, timestamp := 0, msg_cap := 256, msg := ['d'],
        is_end := false } (some 3) 0 1 =
      some (log_sink.file 3, gpt_log_entry_text
        { level := ggml_log_level.DEBUG, timestamp := 0, msg_cap := 256, msg := ['d'],
          is_end := false }) ∧
    gpt_log_entry_print
      { level := ggml_log_level.DEBUG, timestamp := 0, msg_cap := 256, msg := ['d'],
        is_end := false } none 0 1 = none :=
  ⟨(claim_C7_routing _ 3 0 1).1, (claim_C7_routing _ 3 0 1).2.2.2.1 rfl (by decide)⟩

/-- C5 counterexample: the time prefix is NOT bracketed. For a concrete
INFO entry rendered with a non-zero timestamp, the line's first byte is
the ESC of the ANSI color sequence, not a bracket, and the digit fields
are not enclosed in brackets anywhere (the format string is
`"%05d.%02d.%03d.%03d"` with color escapes around it, no brackets). -/
theorem claim_C5_counterexample :
    (gpt_log_entry_text
      { level := ggml_log_level.INFO, timestamp := 3661001002, msg_cap := 256,
        msg := ['h', 'i'], is_end := false }).head? = some '\x1b' ∧
    '\x1b' ≠ '[' := by
  exact ⟨by decide, by decide⟩

/-- C5 (amended): for every entry with level ≠ NONE, when the entry's
timestamp is non-zero the rendered line begins with the UNBRACKETED time
text `MMMMM.SS.mmm.uuu ` (zero-padded to 5/2/3/3 digits, wrapped in blue
color escapes) whose seconds field is in `[0,60)` and whose
milliseconds/microseconds fields are in `[0,1000)`; an entry whose
timestamp is 0 (in particular every entry appended while timestamps are
disabled) is rendered with no time prefix at all. -/
theorem claim_C5_time_fields (e : gpt_log_entry) (hl : e.level ≠ ggml_log_level.NONE) :
    (e.timestamp ≠ 0 →
      (∃ rest, gpt_log_entry_text e = gpt_log_timestamp_text e.timestamp ++ rest) ∧
      e.timestamp / 1000000 % 60 < 60 ∧
      e.timestamp / 1000 % 1000 < 1000 ∧
      e.timestamp % 1000 < 1000) ∧
    (e.timestamp = 0 →
      gpt_log_entry_text e = level_tag e.level ++ e.msg ++ level_trail e.level) := by
  constructor
  · intro ht
    refine ⟨⟨level_tag e.level ++ (e.msg ++ level_trail e.level), ?_⟩, ?_, ?_, ?_⟩
    · rw [gpt_log_entry_text, if_neg hl, if_pos ht]
      simp [List.append_assoc]
    · exact Nat.mod_lt _ (by omega)
    · exact Nat.mod_lt _ (by omega)
    · exact Nat.mod_lt _ (by omega)
  · intro ht
    rw [gpt_log_entry_text, if_neg hl, if_neg (by simp [ht])]
    simp

/-- Witness for C5 (amended) at a concrete INFO entry with timestamp
3661001002 µs (61 min, 1 s, 1 ms, 2 µs). -/
theorem claim_C5_witness :
    (∃ rest, gpt_log_entry_text
      { level := ggml_log_level.INFO, timestamp := 3661001002, msg_cap := 256,
        msg := ['o', 'k'], is_end := false } =
      gpt_log_timestamp_text 3661001002 ++ rest) ∧
    3661001002 / 1000000 % 60 < 60 ∧
    3661001002 / 1000 % 1000 < 1000 ∧
    3661001002 % 1000 < 1000 :=
  (claim_C5_time_fields
    { level := ggml_log_level.INFO, timestamp := 3661001002, msg_cap := 256,
      msg := ['o', 'k'], is_end := false } (by decide)).1 (by decide)

/-- C6 counterexample: a concrete WARN entry rendered to an open output
file: the bytes written to the file contain the ANSI escape character
`ESC` — color decoration is compiled in unconditionally (`LOG_COLORS`),
it is not sink-dependent, so the file sink receives it too. -/
theorem claim_C6_counterexample :
    gpt_log_entry_print
      { level := ggml_log_level.WARN, timestamp := 0, msg_cap := 256, msg := ['h', 'i'],
        is_end := false } (some 0) 0 0 =
      some (log_sink.file 0, gpt_log_entry_text
        { level := ggml_log_level.WARN, timestamp := 0, msg_cap := 256, msg := ['h', 'i'],
          is_end := false }) ∧
    '\x1b' ∈ gpt_log_entry_text
      { level := ggml_log_level.WARN, timestamp := 0, msg_cap := 256, msg := ['h', 'i'],
        is_end := false } := by
  exact ⟨rfl, by decide⟩

/-- C6 (amended): for every entry with level ≠ NONE, the bytes written
to an open output file are the very same text as the console rendering —
including the ANSI color escapes: the file sink does NOT omit them. -/
theorem claim_C6_file_gets_escapes (e : gpt_log_entry) (h : Nat) (v thr : Int)
    (hl : e.level ≠ ggml_log_level.NONE) :
    gpt_log_entry_print e (some h) v thr = some (log_sink.file h, gpt_log_entry_text e) ∧
    '\x1b' ∈ gpt_log_entry_text e := by
  refine ⟨rfl, ?_⟩
  rw [gpt_log_entry_text, if_neg hl]
  apply List.mem_append_left
  apply List.mem_append_left
  apply List.mem_append_right
  rcases e with ⟨lvl, ts, cap, msg, se⟩
  cases lvl
  · exact absurd rfl hl
  · show '\x1b' ∈ level_tag ggml_log_level.INFO
    decide
  · show '\x1b' ∈ level_tag ggml_log_level.WARN
    decide
  · show '\x1b' ∈ level_tag ggml_log_level.ERROR
    decide
  · show '\x1b' ∈ level_tag ggml_log_level.DEBUG
    decide

/-- Witness for C6 (amended) at a concrete ERROR entry and file handle 1. -/
theorem claim_C6_witness :
    gpt_log_entry_print
      { level := ggml_log_level.ERROR, timestamp := 0, msg_cap := 256, msg := ['o', 'k'],
        is_end := false } (some 1) 0 0 =
      some (log_sink.file 1, gpt_log_entry_text
        { level := ggml_log_level.ERROR, timestamp := 0, msg_cap := 256, msg := ['o', 'k'],
          is_end := false }) ∧
    '\x1b' ∈ gpt_log_entry_text
      { level := ggml_log_level.ERROR, timestamp := 0, msg_cap := 256, msg := ['o', 'k'],
        is_end := false } :=
  claim_C6_file_gets_escapes _ 1 0 0 (by decide)

/-- C10 counterexample: the facility-level `create` (`gpt_log_init`)
takes no capacity argument and always returns an instance of ring
capacity 256 — in particular never one of capacity 4, refuting the
claim instantiated at the capacity argument 4. -/
theorem claim_C10_counterexample :
    (gpt_log_init 0).entries.length = 256 ∧ (gpt_log_init 0).entries.length ≠ 4 := by
  have e : (gpt_log_init 0).entries = List.replicate 256 default_slot := rfl
  rw [e, List.length_replicate]
  omega

/-- C10 (amended): the constructor `gpt_log(capacity)` yields a fresh
instance whose ring buffer has exactly the requested capacity, with
`head = tail = 0`, already RUNNING; the facility-level `gpt_log_init()`
has no capacity parameter and returns such an instance with the
hard-coded capacity 256. -/
theorem claim_C10_create (capacity t0 : Nat) :
    (gpt_log_new capacity t0).entries.length = capacity ∧
    (gpt_log_new capacity t0).running = true ∧
    (gpt_log_new capacity t0).head = 0 ∧
    (gpt_log_new capacity t0).tail = 0 ∧
    gpt_log_init t0 = gpt_log_new 256 t0 := by
  refine ⟨?_, rfl, rfl, rfl, rfl⟩
  have e : (gpt_log_new capacity t0).entries = List.replicate capacity default_slot := rfl
  rw [e, List.length_replicate]

/-- C2 (code bug): the sentinel insertion of `pause` has no growth
check. On a capacity-2 instance holding one pending entry (head 0,
tail 1), `pause` marks the sentinel and advances `tail` onto `head`:
afterwards `tail == head` ("empty" by the invariant's test) while two
unconsumed entries — the message and the sentinel — occupy the buffer,
the capacity is still 2 (no doubling happened), and the worker, whose
wake condition is `head != tail`, can never run again: the `join`
inside `pause` never returns (modelled as the `none` outcome). -/
theorem claim_C2_pause_skips_growth :
    gpt_log_pending (gpt_log_add (gpt_log_new 2 0) ggml_log_level.INFO ['a'] 1) ≠ [] ∧
    (gpt_log_pause (gpt_log_add (gpt_log_new 2 0) ggml_log_level.INFO ['a'] 1)).1.tail =
      (gpt_log_pause (gpt_log_add (gpt_log_new 2 0) ggml_log_level.INFO ['a'] 1)).1.head ∧
    (gpt_log_pause (gpt_log_add (gpt_log_new 2 0) ggml_log_level.INFO ['a'] 1)).1.entries.length
      = 2 ∧
    (gpt_log_pause (gpt_log_add (gpt_log_new 2 0) ggml_log_level.INFO ['a'] 1)).2 = none := by
  refine ⟨by decide, by decide, by decide, by decide⟩

/-- C3 (code bug): capacity 4, three entries appended and not yet
consumed by the worker: `pause`'s sentinel insertion makes
`tail == head`, the worker's wait on `head != tail` never succeeds, so
none of the three entries is ever rendered and `pause` never returns
(`none`) — the drain guarantee fails. -/
theorem claim_C3_pause_drain_fails :
    (gpt_log_pending (gpt_log_add (gpt_log_add (gpt_log_add (gpt_log_new 4 0)
      ggml_log_level.INFO ['a'] 1) ggml_log_level.INFO ['b'] 2)
      ggml_log_level.INFO ['c'] 3)).length = 3 ∧
    (gpt_log_pause (gpt_log_add (gpt_log_add (gpt_log_add (gpt_log_new 4 0)
      ggml_log_level.INFO ['a'] 1) ggml_log_level.INFO ['b'] 2)
      ggml_log_level.INFO ['c'] 3)).2 = none := by
  refine ⟨by decide, by decide⟩

/-- C4 counterexample: on a capacity-2 instance with one pending
message, `setSink` never completes — the internal `pause`'s sentinel
fills the ring, the worker never drains, and the pending message
reaches neither the old sinks nor the new file (so it does not "appear
in the old sink(s)" as the claim requires). -/
theorem claim_C4_counterexample :
    (gpt_log_pending (gpt_log_add (gpt_log_new 2 0) ggml_log_level.INFO ['x'] 1)).length = 1 ∧
    gpt_log_set_file (gpt_log_add (gpt_log_new 2 0) ggml_log_level.INFO ['x'] 1)
      (some ['f']) (some 7) = none := by
  refine ⟨by decide, by decide⟩

/-- A buffer with `head = tail` has no pending entries. -/
theorem gpt_log_pending_empty (log : gpt_log) (h : log.head = log.tail) :
    gpt_log_pending log = [] := by
  rw [gpt_log_pending]
  have hz : (log.tail + log.entries.length - log.head) % log.entries.length = 0 := by
    rw [h]
    rcases Nat.eq_zero_or_pos log.entries.length with h0 | h0
    · rw [h0]
      simp
    · have e : log.tail + log.entries.length - log.tail = log.entries.length := by omega
      rw [e, Nat.mod_self]
  rw [hz]
  simp

/-- C4 (amended): provided the internal `pause` completes — the `m`
pending entries plus its sentinel do not fill the ring
(`m + 1 < capacity`) — `setSink` behaves as `pause` (draining exactly
the pending messages, rendered while the OLD file handle was still
installed), then closes the old handle, installs the `fopen` result (or
`none` when no path was given or when the open failed, leaving console
output only), leaves the buffer empty, and resumes; hence no pre-call
message can reach the new file, post-call messages reach only the new
file, and no message is rendered twice. -/
theorem claim_C4_set_file (log : gpt_log) (path : Option (List Char))
    (open_result : Option Nat) (m : Nat)
    (hr : log.running = true)
    (hh : log.head < log.entries.length)
    (hm : m + 1 < log.entries.length)
    (ht : log.tail = (log.head + m) % log.entries.length)
    (hpend : ∀ i, i < m →
      (log.entries.getD ((log.head + i) % log.entries.length) default_slot).is_end = false) :
    ∃ log2,
      gpt_log_set_file log path open_result = some (log2, gpt_log_pending log, log.file) ∧
      log2.head = log2.tail ∧
      gpt_log_pending log2 = [] ∧
      log2.running = true ∧
      log2.file = (match path with | some _ => open_result | none => none) ∧
      log2.entries.length = log.entries.length := by
  have hp := gpt_log_pause_success log m hr hh hm ht hpend
  rw [gpt_log_set_file.eq_def, hp]
  refine ⟨_, rfl, rfl, ?_, rfl, rfl, ?_⟩
  · exact gpt_log_pending_empty _ rfl
  · exact List.length_set ..

/-- The moved region of a growth event: all `C` slots starting at `head`
(the `C - 1` previously pending entries untouched by the `set`, then the
newly written slot at the old `tail`). -/
theorem gpt_log_growth_pending (entries : List gpt_log_entry) (h t : Nat) (W : gpt_log_entry)
    (hh : h < entries.length) (ht : t < entries.length)
    (hf : (t + 1) % entries.length = h) :
    (List.range entries.length).map
      (fun i => (entries.set t W).getD ((h + i) % entries.length) default_slot) =
    (List.range ((t + entries.length - h) % entries.length)).map
      (fun i => entries.getD ((h + i) % entries.length) default_slot) ++ [W] := by
  have hC : 0 < entries.length := Nat.lt_of_le_of_lt (Nat.zero_le _) ht
  have htl : t = (h + (entries.length - 1)) % entries.length := ring_tail_eq ht hh hf
  have hcnt : (t + entries.length - h) % entries.length = entries.length - 1 := by
    rw [htl]
    exact ring_dist_eq hh (by omega)
  rw [hcnt]
  have hsplit : List.range entries.length =
      List.range (entries.length - 1) ++ [entries.length - 1] := by
    have h1 : entries.length - 1 + 1 = entries.length := Nat.succ_pred_eq_of_pos hC
    calc List.range entries.length = List.range (entries.length - 1 + 1) := by rw [h1]
    _ = List.range (entries.length - 1) ++ [entries.length - 1] := by rw [List.range_succ]
  rw [hsplit, List.map_append]
  congr 1
  · apply List.map_congr_left
    intro i hi
    rw [List.mem_range] at hi
    apply getD_set_ne
    · intro hcontra
      rw [htl] at hcontra
      have := ring_add_mod_inj (show entries.length - 1 < entries.length by omega)
        (show i < entries.length by omega) hcontra
      omega
    · exact Nat.mod_lt _ hC
  · simp only [List.map_cons, List.map_nil]
    congr 1
    rw [← htl]
    exact getD_set_self _ _ _ ht

/-- Reading the first `l.length` slots of `l ++ pad` by `getD` gives
back `l`. -/
theorem range_map_getD_append {α : Type} (l pad : List α) (d : α) :
    (List.range l.length).map (fun i => (l ++ pad).getD i d) = l := by
  apply List.ext_getElem
  · simp
  · intro i h1 h2
    simp only [List.getElem_map, List.getElem_range]
    rw [List.getD_append _ _ _ _ (by simpa using h2)]
    rw [List.getD_eq_getElem _ _ (by simpa using h2)]

/-- The pending entries of a freshly grown state (`head = 0`, capacity
twice the tail) are the first `tail` slots in order. -/
theorem gpt_log_pending_fresh (log : gpt_log) (hh0 : log.head = 0)
    (hlen : log.entries.length = 2 * log.tail) (hC : 0 < log.tail) :
    gpt_log_pending log =
      (List.range log.tail).map (fun i => log.entries.getD i default_slot) := by
  rw [gpt_log_pending, hh0, hlen]
  have hcnt : (log.tail + 2 * log.tail - 0) % (2 * log.tail) = log.tail := by
    have e : log.tail + 2 * log.tail - 0 = 2 * log.tail + log.tail := by omega
    rw [e, Nat.add_mod_left, Nat.mod_eq_of_lt (by omega)]
  rw [hcnt]
  apply List.map_congr_left
  intro i hi
  rw [List.mem_range] at hi
  congr 1
  rw [Nat.zero_add, Nat.mod_eq_of_lt (by omega)]

/-- C1: when advancing `tail` after an append makes `tail` equal `head`
(buffer full), `add` doubles the buffer capacity and moves every pending
entry — the previously pending ones followed by the entry just written —
in consumption order starting at `head` into the new array starting at
index 0; afterwards `head = 0` and `tail` equals the number of moved
entries (the old capacity). The pending-list equation states that no
entry is lost, duplicated or reordered and that each moved entry keeps
its level, timestamp and text. -/
theorem claim_C1_growth (log : gpt_log) (level : ggml_log_level) (text : List Char) (now : Nat)
    (hr : log.running = true)
    (hh : log.head < log.entries.length)
    (ht : log.tail < log.entries.length)
    (hf : (log.tail + 1) % log.entries.length = log.head) :
    (gpt_log_add log level text now).entries.length = 2 * log.entries.length ∧
    (gpt_log_add log level text now).head = 0 ∧
    (gpt_log_add log level text now).tail = log.entries.length ∧
    gpt_log_pending (gpt_log_add log level text now) =
      gpt_log_pending log ++ [gpt_log_written_entry log level text now] := by
  have hC : 0 < log.entries.length := Nat.lt_of_le_of_lt (Nat.zero_le _) ht
  simp only [gpt_log_add, hr, Bool.not_true, Bool.false_eq_true, if_false, List.length_set]
  rw [hf]
  rw [if_pos (rfl : log.head = log.head)]
  have hfull := gpt_log_grow_loop_full
    (log.entries.set log.tail (stamp_entry (gpt_log_add_format
      (log.entries.getD log.tail default_slot) text) level
      (if log.timestamps then now - log.t_start else 0)))
    log.head (by simpa using hh)
  simp only [List.length_set] at hfull
  rw [hfull]
  refine ⟨?_, rfl, ?_, ?_⟩
  · simp only [List.length_append, List.length_map, List.length_range, List.length_replicate]
    omega
  · simp only [List.length_map, List.length_range]
  · rw [gpt_log_pending_fresh]
    · rw [range_map_getD_append]
      rw [gpt_log_pending, gpt_log_written_entry]
      exact gpt_log_growth_pending log.entries log.head log.tail _ hh ht hf
    · rfl
    · simp only [List.length_append, List.length_map, List.length_range, List.length_replicate]
      omega
    · simp only [List.length_map, List.length_range]
      exact hC

/-- Witness for C1: capacity 2, one pending entry, then an append that
fills the ring: capacity becomes 4, `head = 0`, `tail = 2`, and the
pending list is the old pending entry followed by the new one. -/
theorem claim_C1_witness :
    (gpt_log_add (gpt_log_add (gpt_log_new 2 0) ggml_log_level.INFO ['a'] 1)
      ggml_log_level.INFO ['b'] 2).entries.length = 4 ∧
    (gpt_log_add (gpt_log_add (gpt_log_new 2 0) ggml_log_level.INFO ['a'] 1)
      ggml_log_level.INFO ['b'] 2).head = 0 ∧
    (gpt_log_add (gpt_log_add (gpt_log_new 2 0) ggml_log_level.INFO ['a'] 1)
      ggml_log_level.INFO ['b'] 2).tail = 2 ∧
    gpt_log_pending (gpt_log_add (gpt_log_add (gpt_log_new 2 0) ggml_log_level.INFO ['a'] 1)
      ggml_log_level.INFO ['b'] 2) =
      gpt_log_pending (gpt_log_add (gpt_log_new 2 0) ggml_log_level.INFO ['a'] 1) ++
      [gpt_log_written_entry (gpt_log_add (gpt_log_new 2 0) ggml_log_level.INFO ['a'] 1)
        ggml_log_level.INFO ['b'] 2] :=
  claim_C1_growth _ ggml_log_level.INFO ['b'] 2 (by decide) (by decide) (by decide) (by decide)

/-- Witness for C4 (amended): capacity 4, two pending messages, switch
to a file that opens as handle 7: the two messages are drained (to the
old sinks: console only, the old file handle was `none`), the buffer
ends empty, the instance is running with the new file installed. -/
theorem claim_C4_witness :
    ∃ log2,
      gpt_log_set_file (gpt_log_add (gpt_log_add (gpt_log_new 4 0) ggml_log_level.INFO ['a'] 1)
        ggml_log_level.INFO ['b'] 2) (some ['f']) (some 7) =
        some (log2,
          gpt_log_pending (gpt_log_add (gpt_log_add (gpt_log_new 4 0)
            ggml_log_level.INFO ['a'] 1) ggml_log_level.INFO ['b'] 2),
          (gpt_log_add (gpt_log_add (gpt_log_new 4 0) ggml_log_level.INFO ['a'] 1)
            ggml_log_level.INFO ['b'] 2).file) ∧
      log2.head = log2.tail ∧
      gpt_log_pending log2 = [] ∧
      log2.running = true ∧
      log2.file = some 7 ∧
      log2.entries.length = (gpt_log_add (gpt_log_add (gpt_log_new 4 0)
        ggml_log_level.INFO ['a'] 1) ggml_log_level.INFO ['b'] 2).entries.length :=
  claim_C4_set_file _ (some ['f']) (some 7) 2 (by decide) (by decide) (by decide) (by decide)
    (by decide)
